import Mathlib

/-!
Verification development for the quantized-model decoding driver
(src/candle-examples/examples/quantized/main.rs).

The pure decision logic of the driver is embedded shallowly:
machine integers (u32 token ids, usize lengths) become Nat, f32/f64
scalars become rationals, the opaque external capabilities (the model
forward pass, the tokenizer encode and vocabulary lookups) become
function parameters, and fallible paths become Except values with a
dedicated constructor distinguishing a panic (Option::unwrap) from a
propagated tokenizer error.
-/

/-- Model-family selector, from the `Which` enum of main.rs (lines 27-53). -/
inductive Which
  | L7b
  | L13b
  | L70b
  | L7bChat
  | L13bChat
  | L70bChat
  | L7bCode
  | L13bCode
  | L34bCode
  | Mistral7b
  | Mistral7bInstruct
  | Zephyr7b
deriving DecidableEq

/-- Which::is_mistral from main.rs (lines 55-70). -/
def Which.is_mistral : Which → Bool
  | .L7b | .L13b | .L70b | .L7bChat | .L13bChat | .L70bChat
  | .L7bCode | .L13bCode | .L34bCode => false
  | .Mistral7b | .Mistral7bInstruct | .Zephyr7b => true

/-- Conversation-mode selector, from the `Prompt` enum of main.rs (lines 20-25). -/
inductive Prompt
  | Interactive
  | Chat
  | One (s : String)
deriving DecidableEq

/-- The configuration fields of `Args` consumed by the generation loop
(main.rs lines 72-128). -/
structure Args where
  sample_len : Nat
  temperature : ℚ
  top_p : Option ℚ
  seed : Nat
  repeat_penalty : ℚ
  repeat_last_n : Nat
  which : Which
  gqa : Option Nat
deriving DecidableEq

/-- Mapping of the configured temperature to an optional one, from main.rs
lines 236-240: a temperature of 0 becomes None (greedy decoding). -/
def temperatureOption (t : ℚ) : Option ℚ :=
  if t = 0 then none else some t

/-- State of the sampling engine. The constructor arguments mirror
LogitsProcessor::new(seed, temperature, top_p); the field `draws` records
how many pseudo-random draws have been consumed from the seeded stream
(0 on construction, incremented only by a sampling call). -/
structure LogitsProcessor where
  seed : Nat
  temperature : Option ℚ
  top_p : Option ℚ
  draws : Nat
deriving DecidableEq

/-- LogitsProcessor::new(seed, temperature, top_p): a freshly seeded engine
with no draws consumed (main.rs line 367 constructs one). -/
def LogitsProcessor.new (seed : Nat) (temperature top_p : Option ℚ) : LogitsProcessor :=
  ⟨seed, temperature, top_p, 0⟩

/-- Tensor::ones_like on a logits vector (main.rs line 375): a vector of
ones of the same length. -/
def onesLike (logits : List ℚ) : List ℚ :=
  logits.map fun _ => 1

/-- Modelled from the spec: the repeat-penalty transform of
candle_transformers::utils::apply_repeat_penalty (called at main.rs line
394 but absent from the source tree). Every logit whose index occurs in
the recent-token window is divided by the penalty when non-negative and
multiplied by it when negative; other logits are unchanged. -/
def apply_repeat_penalty (logits : List ℚ) (penalty : ℚ) (recent : List Nat) : List ℚ :=
  logits.enum.map fun p =>
    if p.1 ∈ recent then (if 0 ≤ p.2 then p.2 / penalty else p.2 * penalty) else p.2

/-- Modelled from the spec: greedy arg-max selection, the branch of the
sampling engine used when the temperature is absent (the LogitsProcessor
source lives outside the source tree). Returns the index of the first
maximal logit. -/
def argmaxIdx (logits : List ℚ) : Nat :=
  (List.range logits.length).foldl
    (fun best i => if logits.getD best 0 < logits.getD i 0 then i else best) 0

/-- Prompt-text selection for a turn, from main.rs lines 327-346: One-shot
mode uses its fixed string; Interactive and Chat modes use the line read
from standard input, wrapped in the instruction template exactly when the
model family is a mistral family. -/
def promptStr (prompt : Prompt) (line : String) (which : Which) : String :=
  match prompt with
  | .One s => s
  | .Interactive | .Chat =>
      if which.is_mistral then "[INST] " ++ line ++ " [/INST]" else line

/-- Context-window truncation, from main.rs lines 360-365. `prompt_tokens`
is the carry-over concatenated with the newly encoded prompt, `to_sample`
is sample_len - 1 and `max_seq_len` stands for model::MAX_SEQ_LEN. Nat
subtraction renders both usize saturating_sub and the in-branch exact
subtraction (which cannot underflow under the branch condition). -/
def fitPrompt (prompt_tokens : List Nat) (to_sample max_seq_len : Nat) : List Nat :=
  if prompt_tokens.length + to_sample > max_seq_len - 10 then
    let to_remove := prompt_tokens.length + to_sample + 10 - max_seq_len
    prompt_tokens.drop (prompt_tokens.length - to_remove)
  else
    prompt_tokens

/-- Per-family default attention-grouping factor for the legacy (ggml/bin)
load path, from main.rs lines 298-311. -/
def default_gqa : Which → Nat
  | .L7b | .L13b | .L7bChat | .L13bChat | .L7bCode | .L13bCode | .L34bCode => 1
  | .Mistral7b | .Mistral7bInstruct | .Zephyr7b | .L70b | .L70bChat => 8

/-- The grouping factor actually passed to ModelWeights::from_ggml, from
main.rs line 312: args.gqa.unwrap_or(default_gqa). -/
def resolvedGqa (gqa : Option Nat) (which : Which) : Nat :=
  gqa.getD (default_gqa which)

/-- The decode loop of main.rs lines 386-409. Each iteration runs the
model on the single token held by the outer `next_token` variable (which
the loop never reassigns: the inner binding at line 403 shadows it),
computes the repeat-penalty-adjusted logits (bound but discarded by the
hardcoded token), appends the constant 15043 to `all_tokens`, and breaks
when that token equals the end-of-sequence id. `fuel` is the remaining
iteration count (initially to_sample) and `index` the loop counter. -/
def decodeLoop (model : List Nat → Nat → List ℚ) (repeat_penalty : ℚ)
    (repeat_last_n : Nat) (next_token eos_token prompt_len : Nat) :
    List Nat → Nat → Nat → List Nat
  | all_tokens, _, 0 => all_tokens
  | all_tokens, index, fuel + 1 =>
    let logits := model [next_token] (prompt_len + index)
    let logits := if repeat_penalty = 1 then logits else
      apply_repeat_penalty logits repeat_penalty
        (all_tokens.drop (all_tokens.length - repeat_last_n))
    let nt := 15043
    let all_tokens' := all_tokens ++ [nt]
    if nt = eos_token then all_tokens'
    else decodeLoop model repeat_penalty repeat_last_n next_token eos_token
      prompt_len all_tokens' (index + 1) fuel

/-- The token sequence a run of the decode loop appends to `all_tokens`:
empty when no iterations remain, the single end-of-sequence hit when the
hardcoded token 15043 equals the end-of-sequence id, and otherwise one
15043 per remaining iteration. -/
def decodeTail (eos_token : Nat) : Nat → List Nat
  | 0 => []
  | fuel + 1 => if 15043 = eos_token then [15043] else 15043 :: decodeTail eos_token fuel

/-- Failure modes of a turn: a panic (Option::unwrap on a missing
vocabulary entry, main.rs line 383) versus a propagated tokenizer error
(the map_err/? on encode, main.rs lines 348-350). -/
inductive Failure
  | panic
  | tokenizerError
deriving DecidableEq

/-- Outcome of one successful turn: the accepted (post-truncation) prompt
tokens, the tokens generated during the turn, and the sampling-engine
state at the end of the turn. -/
structure TurnResult where
  prompt_tokens : List Nat
  all_tokens : List Nat
  lp : LogitsProcessor
deriving DecidableEq

/-- One turn of the generation loop, from main.rs lines 327-420. The
first component of the result is the sequence of token ids emitted
(printed) during the turn, also on the failing paths; the second is the
turn outcome or its failure. -/
def runTurn (model : List Nat → Nat → List ℚ) (encode : String → Option (List Nat))
    (vocab : String → Option Nat) (args : Args) (max_seq_len : Nat)
    (prompt : Prompt) (line : String) (pre_prompt_tokens : List Nat) :
    List Nat × Except Failure TurnResult :=
  let prompt_str := promptStr prompt line args.which
  match encode prompt_str with
  | none => ([], .error .tokenizerError)
  | some tokens =>
    let prompt_tokens := pre_prompt_tokens ++ tokens
    let to_sample := args.sample_len - 1
    let prompt_tokens := fitPrompt prompt_tokens to_sample max_seq_len
    let logits_processor :=
      LogitsProcessor.new args.seed (temperatureOption args.temperature) args.top_p
    let next_token :=
      let logits := model prompt_tokens 0
      let _logits := onesLike logits
      15043
    let all_tokens := [next_token]
    match vocab "</s>" with
    | none => (all_tokens, .error .panic)
    | some eos_token =>
      let all_tokens := decodeLoop model args.repeat_penalty args.repeat_last_n
        next_token eos_token prompt_tokens.length all_tokens 0 to_sample
      (all_tokens, .ok ⟨prompt_tokens, all_tokens, logits_processor⟩)

/-- Cross-turn session state: the carry-over tokens (pre_prompt_tokens of
main.rs line 325) and the number of LogitsProcessor::new constructor
invocations performed so far (line 367 executes once per loop iteration). -/
structure SessionState where
  pre_prompt_tokens : List Nat
  lpNewCount : Nat
deriving DecidableEq

/-- The session state before the first turn: empty carry-over, no
sampling-engine constructions yet. -/
def initSession : SessionState := ⟨[], 0⟩

/-- One iteration of the outer session loop (main.rs lines 326-429): run
the turn, then dispatch on the mode (lines 422-428): One-shot breaks,
Interactive leaves the carry-over unchanged, Chat sets it to the accepted
prompt tokens concatenated with the generated tokens. The Bool result
records whether the loop halts after this turn. -/
def sessionStep (model : List Nat → Nat → List ℚ) (encode : String → Option (List Nat))
    (vocab : String → Option Nat) (args : Args) (max_seq_len : Nat)
    (prompt : Prompt) (line : String) (st : SessionState) :
    Except Failure (SessionState × TurnResult × Bool) :=
  match (runTurn model encode vocab args max_seq_len prompt line st.pre_prompt_tokens).2 with
  | .error e => .error e
  | .ok res =>
    let pre' := match prompt with
      | .One _ => st.pre_prompt_tokens
      | .Interactive => st.pre_prompt_tokens
      | .Chat => res.prompt_tokens ++ res.all_tokens
    let halt := match prompt with
      | .One _ => true
      | .Interactive | .Chat => false
    .ok (⟨pre', st.lpNewCount + 1⟩, res, halt)

/-- A concrete model capability returning an empty logits vector. -/
def cM : List Nat → Nat → List ℚ := fun _ _ => []

/-- A concrete model capability whose logits vector is [5, 1], with
arg-max index 0. -/
def cM3 : List Nat → Nat → List ℚ := fun _ _ => [5, 1]

/-- A concrete tokenizer encode mapping every string to the token list [3]. -/
def cE : String → Option (List Nat) := fun _ => some [3]

/-- A concrete vocabulary whose end-of-sequence id is 2. -/
def cV : String → Option Nat := fun _ => some 2

/-- A concrete vocabulary whose end-of-sequence id is the hardcoded
generated token 15043. -/
def cV15043 : String → Option Nat := fun _ => some 15043

/-- A concrete vocabulary with no entry at all, in particular none for
the end-of-sequence key. -/
def cVnone : String → Option Nat := fun _ => none

/-- A concrete configuration: sample_len 2, temperature 0 (greedy),
no nucleus cutoff, the default seed, repeat penalty 1, lookback 64,
family L7b, no grouping override. -/
def cArgs : Args := ⟨2, 0, none, 299792458, 1, 64, Which.L7b, none⟩

/-- The turn outcome of a turn run with cM/cE/cV/cArgs from an empty
carry-over: accepted prompt [3], generated tokens [15043, 15043], and a
freshly seeded engine with no draws consumed. -/
def cRes1 : TurnResult :=
  ⟨[3], [15043, 15043], LogitsProcessor.new 299792458 none none⟩

/-- The session state after one such turn. -/
def cSt1 : SessionState := ⟨[], 1⟩

/-- The lpNewCount reached by a two-turn Interactive session run with
cM/cE/cV/cArgs, chaining sessionStep twice from the initial state. -/
def twoTurnCount : Except Failure Nat :=
  match sessionStep cM cE cV cArgs 4096 .Interactive "x" initSession with
  | .error e => .error e
  | .ok (st1, _, _) =>
    match sessionStep cM cE cV cArgs 4096 .Interactive "y" st1 with
    | .error e => .error e
    | .ok (st2, _, _) => .ok st2.lpNewCount

/-- Dropping from a replicated list yields a shorter replicated list. -/
lemma drop_replicate (a : Nat) : ∀ m n, (List.replicate n a).drop m = List.replicate (n - m) a := by
  intro m
  induction m with
  | zero => intro n; simp
  | succ k ih =>
    intro n
    cases n with
    | zero => simp
    | succ n' =>
      simp only [List.replicate_succ, List.drop_succ_cons, Nat.succ_sub_succ]
      exact ih n'

/-- Every token the decode loop appends is the hardcoded constant 15043. -/
lemma decodeTail_mem (eos fuel t : Nat) (h : t ∈ decodeTail eos fuel) : t = 15043 := by
  induction fuel with
  | zero => simp [decodeTail] at h
  | succ n ih =>
    simp only [decodeTail] at h
    split at h
    · simpa using h
    · rcases List.mem_cons.mp h with h1 | h2
      · exact h1
      · exact ih h2

/-- The appended decode tokens all pass the constant-token test. -/
lemma decodeTail_all (eos fuel : Nat) : (decodeTail eos fuel).all (fun t => t == 15043) = true := by
  rw [List.all_eq_true]
  intro x hx
  have hx' := decodeTail_mem eos fuel x hx
  subst hx'
  rfl

/-- The decode loop performs at least one iteration whenever iterations remain. -/
lemma decodeTail_ne_nil (eos fuel : Nat) (h : 0 < fuel) : decodeTail eos fuel ≠ [] := by
  cases fuel with
  | zero => exact absurd h (lt_irrefl 0)
  | succ n =>
    simp only [decodeTail]
    split
    · simp
    · simp

/-- At most one element of the appended decode tokens sits at or after the
first occurrence of the end-of-sequence id: the loop exits immediately
after appending it. -/
lemma decodeTail_dropWhile (eos fuel : Nat) :
    ((decodeTail eos fuel).dropWhile (fun t => t != eos)).length ≤ 1 := by
  cases fuel with
  | zero => simp [decodeTail]
  | succ n =>
    simp only [decodeTail]
    by_cases h : 15043 = eos
    · rw [if_pos h]
      subst h
      simp [List.dropWhile]
    · rw [if_neg h]
      have hnil : (15043 :: decodeTail eos n).dropWhile (fun t => t != eos) = [] := by
        rw [List.dropWhile_eq_nil_iff]
        intro x hx
        have hx' : x = 15043 := by
          rcases List.mem_cons.mp hx with h1 | h2
          · exact h1
          · exact decodeTail_mem eos n x h2
        subst hx'
        simp only [bne_iff_ne, ne_eq]
        exact h
      rw [hnil]
      simp

/-- Closed form of the decode loop: it appends decodeTail to the
accumulated tokens, independently of the model, the penalty
configuration, the fed token and the position offset. -/
lemma decodeLoop_eq (model : List Nat → Nat → List ℚ) (rp : ℚ) (rln nt eos pl : Nat) :
    ∀ fuel acc idx, decodeLoop model rp rln nt eos pl acc idx fuel = acc ++ decodeTail eos fuel := by
  intro fuel
  induction fuel with
  | zero => intro acc idx; simp [decodeLoop, decodeTail]
  | succ n ih =>
    intro acc idx
    simp only [decodeLoop, decodeTail]
    by_cases h : 15043 = eos
    · rw [if_pos h, if_pos h]
    · rw [if_neg h, if_neg h, ih]
      simp

/-- A failing tokenizer encode propagates as a tokenizer error with
nothing emitted. -/
lemma runTurn_encode_err (model : List Nat → Nat → List ℚ)
    (encode : String → Option (List Nat)) (vocab : String → Option Nat)
    (args : Args) (msl : Nat) (prompt : Prompt) (line : String) (pre : List Nat)
    (hE : encode (promptStr prompt line args.which) = none) :
    runTurn model encode vocab args msl prompt line pre = ([], .error .tokenizerError) := by
  simp [runTurn, hE]

/-- A missing end-of-sequence vocabulary entry panics after the prefill
token has been emitted. -/
lemma runTurn_vocab_err (model : List Nat → Nat → List ℚ)
    (encode : String → Option (List Nat)) (vocab : String → Option Nat)
    (args : Args) (msl : Nat) (prompt : Prompt) (line : String) (pre tokens : List Nat)
    (hE : encode (promptStr prompt line args.which) = some tokens)
    (hV : vocab "</s>" = none) :
    runTurn model encode vocab args msl prompt line pre = ([15043], .error .panic) := by
  simp [runTurn, hE, hV]

/-- Closed form of a successful turn. -/
lemma runTurn_ok_spec (model : List Nat → Nat → List ℚ)
    (encode : String → Option (List Nat)) (vocab : String → Option Nat)
    (args : Args) (msl : Nat) (prompt : Prompt) (line : String) (pre tokens : List Nat)
    (eos : Nat)
    (hE : encode (promptStr prompt line args.which) = some tokens)
    (hV : vocab "</s>" = some eos) :
    runTurn model encode vocab args msl prompt line pre =
      (15043 :: decodeTail eos (args.sample_len - 1),
        Except.ok ⟨fitPrompt (pre ++ tokens) (args.sample_len - 1) msl,
          15043 :: decodeTail eos (args.sample_len - 1),
          LogitsProcessor.new args.seed (temperatureOption args.temperature) args.top_p⟩) := by
  simp [runTurn, hE, hV, decodeLoop_eq]

/-- The sampling-engine state returned by a successful turn is the freshly
seeded one. -/
lemma runTurn_snd_ok_lp (model : List Nat → Nat → List ℚ)
    (encode : String → Option (List Nat)) (vocab : String → Option Nat)
    (args : Args) (msl : Nat) (prompt : Prompt) (line : String) (pre : List Nat)
    (res : TurnResult)
    (h : (runTurn model encode vocab args msl prompt line pre).2 = Except.ok res) :
    res.lp = LogitsProcessor.new args.seed (temperatureOption args.temperature) args.top_p := by
  cases hE : encode (promptStr prompt line args.which) with
  | none =>
    rw [runTurn_encode_err model encode vocab args msl prompt line pre hE] at h
    simp at h
  | some tokens =>
    cases hV : vocab "</s>" with
    | none =>
      rw [runTurn_vocab_err model encode vocab args msl prompt line pre tokens hE hV] at h
      simp at h
    | some eos =>
      rw [runTurn_ok_spec model encode vocab args msl prompt line pre tokens eos hE hV] at h
      simp only at h
      injection h with h'
      rw [← h']

/-- C1: the claim predicts that when the concatenated sequence plus the
planned new tokens exceeds max_sequence_length - 10, exactly
K = len + planned + 10 - max tokens are dropped from the front, leaving
the suffix of length len - K. Evaluating the source truncation on a
4000-token sequence with to_sample = 99 and max = 4096 (K = 13) shows the
code instead keeps only the last K = 13 tokens - it drops len - K = 3987
from the front, not K, so the result differs from the claimed suffix
List.drop 13. -/
theorem claim_C1_code_eval :
    fitPrompt (List.replicate 4000 7) 99 4096 = List.replicate 13 7 ∧
    List.replicate 13 7 ≠ List.drop 13 (List.replicate 4000 7) := by
  constructor
  · unfold fitPrompt
    simp only [List.length_replicate]
    norm_num [drop_replicate]
  · intro h
    have hl := congrArg List.length h
    simp only [List.length_replicate, List.length_drop] at hl
    omega

/-- C2: in every turn, every emitted token id is the constant 15043
regardless of the model, the temperature, top_p, the seed and the repeat
penalty, the generated-token history equals the emitted sequence, and the
sampling-engine state returned at the end of the turn is exactly the
freshly seeded one with zero draws consumed: the sampling call is never
executed. -/
theorem claim_C2 : ∀ (model : List Nat → Nat → List ℚ)
    (encode : String → Option (List Nat)) (vocab : String → Option Nat)
    (args : Args) (msl : Nat) (prompt : Prompt) (line : String)
    (pre emitted : List Nat) (res : TurnResult),
    runTurn model encode vocab args msl prompt line pre = (emitted, Except.ok res) →
    emitted.all (fun t => t == 15043) = true ∧
    res.all_tokens = emitted ∧
    res.lp = LogitsProcessor.new args.seed (temperatureOption args.temperature) args.top_p ∧
    res.lp.draws = 0 := by
  intro model encode vocab args msl prompt line pre emitted res h
  cases hE : encode (promptStr prompt line args.which) with
  | none =>
    rw [runTurn_encode_err model encode vocab args msl prompt line pre hE] at h
    simp at h
  | some tokens =>
    cases hV : vocab "</s>" with
    | none =>
      rw [runTurn_vocab_err model encode vocab args msl prompt line pre tokens hE hV] at h
      simp at h
    | some eos =>
      rw [runTurn_ok_spec model encode vocab args msl prompt line pre tokens eos hE hV] at h
      obtain ⟨h1, h2⟩ := Prod.mk.injEq .. |>.mp h
      injection h2 with h3
      subst h1
      subst h3
      refine ⟨?_, rfl, rfl, rfl⟩
      simp only [List.all_cons, decodeTail_all, Bool.and_true]
      rfl

/-- Witness for C2 at a concrete turn. -/
theorem claim_C2_witness :
    ([15043, 15043] : List Nat).all (fun t => t == 15043) = true ∧
    cRes1.all_tokens = [15043, 15043] ∧
    cRes1.lp = LogitsProcessor.new cArgs.seed (temperatureOption cArgs.temperature) cArgs.top_p ∧
    cRes1.lp.draws = 0 :=
  claim_C2 cM cE cV cArgs 4096 (Prompt.One "p") "" [] [15043, 15043] cRes1 (by rfl)

/-- C3: with the temperature absent (configured temperature 0), the claim
says each selected token is the arg-max of the step's logits; but the
code appends the hardcoded 15043 (the sampling call is commented out with
a TODO), so on logits [5, 1] - whose arg-max index is 0 - the emitted
tokens are still 15043. -/
theorem claim_C3_code_eval :
    temperatureOption cArgs.temperature = none ∧
    argmaxIdx [(5 : ℚ), 1] = 0 ∧
    (runTurn cM3 cE cV cArgs 4096 (Prompt.One "p") "" []).1 = [15043, 15043] ∧
    (15043 : Nat) ≠ 0 :=
  ⟨rfl, by decide, by rfl, by decide⟩

/-- C4 counterexample: the claim says the sampling engine is seeded once
at session start and never reseeded between turns; but a two-turn
Interactive session performs two LogitsProcessor constructions (one at
the start of every turn), not one. -/
theorem claim_C4_counterexample :
    twoTurnCount = Except.ok 2 ∧ (Except.ok 2 : Except Failure Nat) ≠ Except.ok 1 := by
  refine ⟨by rfl, fun h => absurd (Except.ok.inj h) (by decide)⟩

/-- C4 amended: a fresh sampling engine is seeded with the same
configured seed at the start of every turn (the constructor count grows
by one per turn, so the stream is reseeded between turns, not seeded once
per session); nevertheless, because the current code never draws from the
stream, the engine state left at the end of turn N equals the freshly
seeded state used at the start of turn N+1. -/
theorem claim_C4_amended : ∀ (model : List Nat → Nat → List ℚ)
    (encode : String → Option (List Nat)) (vocab : String → Option Nat)
    (args : Args) (msl : Nat) (prompt : Prompt) (line : String)
    (st : SessionState) (out : SessionState × TurnResult × Bool),
    sessionStep model encode vocab args msl prompt line st = Except.ok out →
    out.1.lpNewCount = st.lpNewCount + 1 ∧
    out.2.1.lp = LogitsProcessor.new args.seed (temperatureOption args.temperature) args.top_p ∧
    out.2.1.lp.draws = 0 := by
  intro model encode vocab args msl prompt line st out h
  cases hR : (runTurn model encode vocab args msl prompt line st.pre_prompt_tokens).2 with
  | error e => simp [sessionStep, hR] at h
  | ok res =>
    simp only [sessionStep, hR] at h
    injection h with h'
    have hlp := runTurn_snd_ok_lp model encode vocab args msl prompt line
      st.pre_prompt_tokens res hR
    rw [← h']
    exact ⟨rfl, hlp, by rw [hlp]; rfl⟩


/-- Witness for C4 amended at a concrete turn. -/
theorem claim_C4_witness :
    cSt1.lpNewCount = initSession.lpNewCount + 1 ∧
    cRes1.lp = LogitsProcessor.new cArgs.seed (temperatureOption cArgs.temperature) cArgs.top_p ∧
    cRes1.lp.draws = 0 :=
  claim_C4_amended cM cE cV cArgs 4096 Prompt.Interactive "x" initSession
    (cSt1, cRes1, false) (by rfl)

/-- C5: at the end of a successful Chat turn the carry-over for the next
turn equals the accepted prompt tokens concatenated with the tokens
generated in the turn, and the loop continues; after an Interactive turn
the carry-over is unchanged (hence stays empty from the initial state)
and the loop continues; after a one-shot turn the loop halts with the
carry-over unchanged. -/
theorem claim_C5 : ∀ (model : List Nat → Nat → List ℚ)
    (encode : String → Option (List Nat)) (vocab : String → Option Nat)
    (args : Args) (msl : Nat) (line : String) (st : SessionState),
    (∀ out, sessionStep model encode vocab args msl Prompt.Chat line st = Except.ok out →
      out.1.pre_prompt_tokens = out.2.1.prompt_tokens ++ out.2.1.all_tokens ∧
      out.2.2 = false) ∧
    (∀ out, sessionStep model encode vocab args msl Prompt.Interactive line st = Except.ok out →
      out.1.pre_prompt_tokens = st.pre_prompt_tokens ∧ out.2.2 = false) ∧
    (∀ s out, sessionStep model encode vocab args msl (Prompt.One s) line st = Except.ok out →
      out.2.2 = true ∧ out.1.pre_prompt_tokens = st.pre_prompt_tokens) := by
  intro model encode vocab args msl line st
  refine ⟨?_, ?_, ?_⟩
  · intro out h
    cases hR : (runTurn model encode vocab args msl Prompt.Chat line st.pre_prompt_tokens).2 with
    | error e => simp [sessionStep, hR] at h
    | ok res =>
      simp only [sessionStep, hR] at h
      injection h with h'
      rw [← h']
      exact ⟨rfl, rfl⟩
  · intro out h
    cases hR : (runTurn model encode vocab args msl Prompt.Interactive line st.pre_prompt_tokens).2 with
    | error e => simp [sessionStep, hR] at h
    | ok res =>
      simp only [sessionStep, hR] at h
      injection h with h'
      rw [← h']
      exact ⟨rfl, rfl⟩
  · intro s out h
    cases hR : (runTurn model encode vocab args msl (Prompt.One s) line st.pre_prompt_tokens).2 with
    | error e => simp [sessionStep, hR] at h
    | ok res =>
      simp only [sessionStep, hR] at h
      injection h with h'
      rw [← h']
      exact ⟨rfl, rfl⟩

/-- Witness for C5: the three mode behaviours at a concrete turn from the
initial (empty) carry-over. -/
theorem claim_C5_witness :
    ((⟨[3, 15043, 15043], 1⟩ : SessionState).pre_prompt_tokens =
        cRes1.prompt_tokens ++ cRes1.all_tokens ∧ false = false) ∧
    ((cSt1 : SessionState).pre_prompt_tokens = initSession.pre_prompt_tokens ∧ false = false) ∧
    (true = true ∧ (cSt1 : SessionState).pre_prompt_tokens = initSession.pre_prompt_tokens) :=
  ⟨(claim_C5 cM cE cV cArgs 4096 "x" initSession).1 (⟨[3, 15043, 15043], 1⟩, cRes1, false) (by rfl),
   (claim_C5 cM cE cV cArgs 4096 "x" initSession).2.1 (cSt1, cRes1, false) (by rfl),
   (claim_C5 cM cE cV cArgs 4096 "x" initSession).2.2 "p" (cSt1, cRes1, true) (by rfl)⟩

/-- C6: with no explicit override the resolved attention-grouping factor
for a legacy load is 1 for the seven standard families and 8 for the
grouped-query families, and a supplied override is used verbatim. -/
theorem claim_C6 :
    resolvedGqa none Which.L7b = 1 ∧ resolvedGqa none Which.L13b = 1 ∧
    resolvedGqa none Which.L7bChat = 1 ∧ resolvedGqa none Which.L13bChat = 1 ∧
    resolvedGqa none Which.L7bCode = 1 ∧ resolvedGqa none Which.L13bCode = 1 ∧
    resolvedGqa none Which.L34bCode = 1 ∧
    resolvedGqa none Which.Mistral7b = 8 ∧ resolvedGqa none Which.Mistral7bInstruct = 8 ∧
    resolvedGqa none Which.Zephyr7b = 8 ∧ resolvedGqa none Which.L70b = 8 ∧
    resolvedGqa none Which.L70bChat = 8 ∧
    ∀ (w : Which) (g : Nat), resolvedGqa (some g) w = g :=
  ⟨rfl, rfl, rfl, rfl, rfl, rfl, rfl, rfl, rfl, rfl, rfl, rfl, fun _ _ => rfl⟩

/-- C7 counterexample: with a tokenizer whose end-of-sequence id is 15043
the prefill step already produces the end-of-sequence id, yet the turn
still performs a decode iteration and generates a second token - the
claim that an end-of-sequence id produced by the prefill step stops all
further sampling is false. -/
theorem claim_C7_counterexample :
    runTurn cM cE cV15043 cArgs 4096 (Prompt.One "p") "" [] =
      ([15043, 15043],
        Except.ok ⟨[3], [15043, 15043], LogitsProcessor.new 299792458 none none⟩) ∧
    cV15043 "</s>" = some 15043 ∧
    ([15043, 15043] : List Nat) ≠ [15043] := by
  refine ⟨by rfl, rfl, by decide⟩

/-- C7 amended: inside the decode loop, a produced token equal to the
end-of-sequence id is still appended to the generated history and the
loop exits immediately (no element after the first end-of-sequence
occurrence in the appended tail); but an end-of-sequence id produced by
the prefill step does not pre-empt the loop: whenever iterations remain,
the loop still appends at least one token. -/
theorem claim_C7_amended : ∀ (model : List Nat → Nat → List ℚ) (rp : ℚ)
    (rln nt eos pl : Nat) (acc : List Nat) (idx fuel : Nat),
    decodeLoop model rp rln nt eos pl acc idx fuel = acc ++ decodeTail eos fuel ∧
    ((decodeTail eos fuel).dropWhile (fun t => t != eos)).length ≤ 1 ∧
    (0 < fuel → decodeTail eos fuel ≠ []) :=
  fun model rp rln nt eos pl acc idx fuel =>
    ⟨decodeLoop_eq model rp rln nt eos pl fuel acc idx,
     decodeTail_dropWhile eos fuel,
     fun h => decodeTail_ne_nil eos fuel h⟩

/-- Witness for C7 amended, at the end-of-sequence id 15043 and three
remaining iterations. -/
theorem claim_C7_witness :
    decodeLoop cM 1 64 15043 15043 0 [15043] 0 3 = [15043] ++ decodeTail 15043 3 ∧
    ((decodeTail 15043 3).dropWhile (fun t => t != 15043)).length ≤ 1 ∧
    decodeTail 15043 3 ≠ [] := by
  have h := claim_C7_amended cM 1 64 15043 15043 0 [15043] 0 3
  exact ⟨h.1, h.2.1, h.2.2 (by decide)⟩

/-- C8: the claim bounds the accepted sequence by
max_sequence_length - margin - planned_new_tokens; evaluating the source
truncation on a 9000-token sequence with to_sample = 99 and max = 4096
yields 5013 accepted tokens, exceeding the bound 4096 - 10 - 99 = 3987:
the code keeps the overflow amount instead of the allowed budget. -/
theorem claim_C8_code_eval :
    (fitPrompt (List.replicate 9000 7) 99 4096).length = 5013 ∧
    ¬ (fitPrompt (List.replicate 9000 7) 99 4096).length ≤ 4096 - 10 - 99 := by
  have h : (fitPrompt (List.replicate 9000 7) 99 4096).length = 5013 := by
    unfold fitPrompt
    simp only [List.length_replicate]
    norm_num [drop_replicate]
  exact ⟨h, by rw [h]; norm_num⟩

/-- C9 counterexample: in Interactive mode with a mistral-family model
the line read from input is wrapped in the instruction template, so it is
not used as-is - wrapping is not exclusive to Chat mode. -/
theorem claim_C9_counterexample :
    promptStr Prompt.Interactive "hi" Which.Mistral7b = "[INST] hi [/INST]" ∧
    promptStr Prompt.Interactive "hi" Which.Mistral7b ≠ "hi" := by
  refine ⟨by rfl, by decide⟩

/-- C9 amended: one-shot mode uses its fixed string as-is; Interactive
and Chat modes behave identically, both wrapping the raw line in the
instruction template exactly when the model family is a mistral family
and otherwise using the line as-is. -/
theorem claim_C9_amended : ∀ (s line : String) (w : Which),
    promptStr (Prompt.One s) line w = s ∧
    promptStr Prompt.Interactive line w = promptStr Prompt.Chat line w ∧
    (w.is_mistral = true → promptStr Prompt.Chat line w = "[INST] " ++ line ++ " [/INST]") ∧
    (w.is_mistral = false → promptStr Prompt.Chat line w = line) := by
  intro s line w
  refine ⟨rfl, rfl, fun h => ?_, fun h => ?_⟩ <;> simp [promptStr, h]

/-- Witness for C9 amended: the mistral case and the non-mistral case. -/
theorem claim_C9_witness :
    (promptStr (Prompt.One "p") "hi" Which.Mistral7b = "p" ∧
     promptStr Prompt.Chat "hi" Which.Mistral7b = "[INST] hi [/INST]") ∧
    promptStr Prompt.Chat "hi" Which.L7b = "hi" :=
  ⟨⟨(claim_C9_amended "p" "hi" Which.Mistral7b).1,
    (claim_C9_amended "p" "hi" Which.Mistral7b).2.2.1 rfl⟩,
   (claim_C9_amended "p" "hi" Which.L7b).2.2.2 rfl⟩

/-- C10: whenever the tokenizer vocabulary has no entry for the
end-of-sequence key, the turn panics (the unwrap at main.rs line 383)
right after emitting the prefill token, rather than propagating a
tokenizer error. -/
theorem claim_C10 : ∀ (model : List Nat → Nat → List ℚ)
    (encode : String → Option (List Nat)) (vocab : String → Option Nat)
    (args : Args) (msl : Nat) (prompt : Prompt) (line : String)
    (pre tokens : List Nat),
    encode (promptStr prompt line args.which) = some tokens →
    vocab "</s>" = none →
    runTurn model encode vocab args msl prompt line pre =
      ([15043], Except.error Failure.panic) := by
  intro model encode vocab args msl prompt line pre tokens hE hV
  exact runTurn_vocab_err model encode vocab args msl prompt line pre tokens hE hV

/-- Witness for C10 at a concrete vocabulary with no entries. -/
theorem claim_C10_witness :
    cE (promptStr (Prompt.One "p") "" cArgs.which) = some [3] ∧
    cVnone "</s>" = none ∧
    runTurn cM cE cVnone cArgs 4096 (Prompt.One "p") "" [] =
      ([15043], Except.error Failure.panic) :=
  ⟨rfl, rfl, claim_C10 cM cE cVnone cArgs 4096 (Prompt.One "p") "" [] [3] rfl rfl⟩
